import Mathlib

/-!
Verification of the ingestion-and-query pipeline of the vbms repository
(CSV row transformer / MQTT publisher, InfluxDB subscriber/writer, FastAPI
query layer) against its natural-language specification.

The Python source is shallowly embedded: every fallible Python operation is
a Lean function into `Except PyError _`; Python dictionaries are association
lists; Python floats are modelled as exact rationals (`ℚ`); the time-series
store is a list of points, per the black-box store contract of the spec.
-/

namespace VBMS

/-- Python exception classes that the embedded code can raise.  Only the
constructor matters for control flow (`except ValueError` clauses); the
string argument carries the offending key or datum. -/
inductive PyError where
  | keyError (k : String)
  | valueError (msg : String)
  | typeError (msg : String)
  | jsonDecodeError (msg : String)
  deriving DecidableEq

deriving instance DecidableEq for Except

/-- Naive civil datetime, second precision, as produced by
`datetime.strptime` (no timezone; the pipeline is UTC-normalized). -/
structure Datetime where
  year : Nat
  month : Nat
  day : Nat
  hour : Nat
  minute : Nat
  second : Nat
  deriving DecidableEq

/-- Whitespace characters stripped by Python `str.strip()` and split on by
`str.split()` (ASCII subset; the CSV never contains unicode spaces). -/
def isPyWs (c : Char) : Bool :=
  c = ' ' || c = '\t' || c = '\n' || c = '\r' || c = '\x0b' || c = '\x0c'

/-- Model of Python `str.strip()`. -/
def pyStrip (s : String) : String :=
  ⟨(s.toList.dropWhile isPyWs).reverse.dropWhile isPyWs |>.reverse⟩

/-- Model of Python `str.split()[0]` on a non-empty stripped string: the
first maximal run of non-whitespace characters. -/
def firstToken (s : String) : String :=
  ⟨(s.toList.dropWhile isPyWs).takeWhile (fun c => !isPyWs c)⟩

/-- Model of Python `str.endswith`. -/
def strEndsWith (s suffx : String) : Bool :=
  List.isSuffixOf suffx.toList s.toList

/-- Numeric value of a decimal digit character. -/
def digitVal (c : Char) : Nat := c.toNat - '0'.toNat

/-- One numeric directive of CPython `_strptime`: its regex first tries the
two-digit alternatives (`ok2` describes which two-digit values the
alternation accepts), then the one-digit alternative (`ok1`), backtracking
into the continuation `k` exactly as the regex engine does. -/
def parse2or1 (ok2 ok1 : Nat → Bool) (k : Nat → List Char → Option α) :
    List Char → Option α
  | c1 :: c2 :: rest =>
    if c1.isDigit && c2.isDigit && ok2 (10 * digitVal c1 + digitVal c2) then
      match k (10 * digitVal c1 + digitVal c2) rest with
      | some v => some v
      | none =>
        if c1.isDigit && ok1 (digitVal c1) then k (digitVal c1) (c2 :: rest)
        else none
    else if c1.isDigit && ok1 (digitVal c1) then k (digitVal c1) (c2 :: rest)
    else none
  | [c1] =>
    if c1.isDigit && ok1 (digitVal c1) then k (digitVal c1) [] else none
  | [] => none

/-- Whitespace in a strptime format string matches one or more whitespace
characters of the input. -/
def skipWs1 : List Char → Option (List Char)
  | c :: rest => if isPyWs c then some (rest.dropWhile isPyWs) else none
  | [] => none

/-- Regex alternation for `%m`: `1[0-2]|0[1-9]|[1-9]`. -/
def monthOk2 (n : Nat) : Bool := decide (1 ≤ n) && decide (n ≤ 12)

/-- One-digit month alternative `[1-9]`. -/
def monthOk1 (n : Nat) : Bool := decide (1 ≤ n)

/-- Regex alternation for `%d`: `3[01]|[12]\d|0[1-9]|[1-9]`. -/
def dayOk2 (n : Nat) : Bool := decide (1 ≤ n) && decide (n ≤ 31)

/-- One-digit day alternative `[1-9]`. -/
def dayOk1 (n : Nat) : Bool := decide (1 ≤ n)

/-- Regex alternation for `%H`: `2[0-3]|[0-1]\d|\d`. -/
def hourOk2 (n : Nat) : Bool := decide (n ≤ 23)

/-- Any single digit is an acceptable one-digit hour. -/
def anyDigitOk (_ : Nat) : Bool := true

/-- Regex alternation for `%M`: `[0-5]\d|\d`. -/
def minuteOk2 (n : Nat) : Bool := decide (n ≤ 59)

/-- Regex alternation for `%S`: `6[0-1]|[0-5]\d|\d` (the regex admits the
leap seconds 60 and 61; the `datetime` constructor rejects them later). -/
def secondOk2 (n : Nat) : Bool := decide (n ≤ 61)

/-- Regex match of the format `%m/%d %H:%M:%S` against a whole string,
following the CPython `_strptime` translation of the format (numeric
directives as above, literal separators, whitespace as one-or-more, and a
full-length match required). -/
def strptimeRegexMDHMS (cs : List Char) : Option (Nat × Nat × Nat × Nat × Nat) :=
  parse2or1 monthOk2 monthOk1 (fun m r1 =>
    match r1 with
    | '/' :: r2 =>
      parse2or1 dayOk2 dayOk1 (fun d r3 =>
        match skipWs1 r3 with
        | some r4 =>
          parse2or1 hourOk2 anyDigitOk (fun h r5 =>
            match r5 with
            | ':' :: r6 =>
              parse2or1 minuteOk2 anyDigitOk (fun mi r7 =>
                match r7 with
                | ':' :: r8 =>
                  parse2or1 secondOk2 anyDigitOk (fun sec r9 =>
                    match r9 with
                    | [] => some (m, d, h, mi, sec)
                    | _ => none) r8
                | _ => none) r6
            | _ => none) r4
        | none => none) r2
    | _ => none) cs

/-- Days per month in the strptime default year 1900 (not a leap year). -/
def daysInMonth1900 (m : Nat) : Nat :=
  if m = 2 then 28
  else if m = 4 || m = 6 || m = 9 || m = 11 then 30
  else 31

/-- Model of `datetime.strptime(s, "%m/%d %H:%M:%S")`: the regex match
followed by the `datetime` constructor validation (day against the month
length of the default year 1900, seconds at most 59).  Both failure modes
raise `ValueError` in Python and are merged into `none` here. -/
def strptimeMDHMS (s : String) : Option Datetime :=
  match strptimeRegexMDHMS s.toList with
  | some (m, d, h, mi, sec) =>
    if d ≤ daysInMonth1900 m && sec ≤ 59 then
      some ⟨1900, m, d, h, mi, sec⟩
    else none
  | none => none

/-- Regex match of the format `%m/%d` against a whole string. -/
def strptimeRegexMD (cs : List Char) : Option (Nat × Nat) :=
  parse2or1 monthOk2 monthOk1 (fun m r1 =>
    match r1 with
    | '/' :: r2 =>
      parse2or1 dayOk2 dayOk1 (fun d r3 =>
        match r3 with
        | [] => some (m, d)
        | _ => none) r2
    | _ => none) cs

/-- Model of `datetime.strptime(s, "%m/%d")`. -/
def strptimeMD (s : String) : Option (Nat × Nat) :=
  match strptimeRegexMD s.toList with
  | some (m, d) => if d ≤ daysInMonth1900 m then some (m, d) else none
  | none => none

/-- Model of `+ timedelta(days=1)` on a midnight datetime of the non-leap
default year 1900, returning the new month and day (a wrap past December 31
moves into the next year, which the subsequent `replace(year=2005)`
overwrites). -/
def addOneDay1900 (m d : Nat) : Nat × Nat :=
  if d < daysInMonth1900 m then (m, d + 1)
  else if m < 12 then (m + 1, 1)
  else (1, 1)

/-- Embedding of `utils.parse_datetime` (src/src/utils.py lines 179-190):
strip, try the full `%m/%d %H:%M:%S` parse, on `ValueError` fall back to
the `24:00:00` special case (parse the date portion only and add one day),
otherwise re-raise; finally substitute the fixed year 2005. -/
def parse_datetime (dt_str : String) : Except PyError Datetime :=
  let s := pyStrip dt_str
  match strptimeMDHMS s with
  | some dt => .ok { dt with year := 2005 }
  | none =>
    if strEndsWith s "24:00:00" then
      match strptimeMD (firstToken s) with
      | some (m, d) =>
        let md := addOneDay1900 m d
        .ok ⟨2005, md.1, md.2, 0, 0, 0⟩
      | none => .error (.valueError (firstToken s))
    else .error (.valueError s)

example : parse_datetime "01/15 24:00:00" = .ok ⟨2005, 1, 16, 0, 0, 0⟩ := rfl
example : parse_datetime "12/31 24:00:00" = .ok ⟨2005, 1, 1, 0, 0, 0⟩ := rfl
example : parse_datetime "01/15 10:30:00" = .ok ⟨2005, 1, 15, 10, 30, 0⟩ := rfl
example : parse_datetime " 02/03 4:05:06" = .ok ⟨2005, 2, 3, 4, 5, 6⟩ := rfl
example : parse_datetime "banana" = .error (.valueError "banana") := rfl
example : parse_datetime "02/29 10:00:00" = .error (.valueError "02/29 10:00:00") := rfl
example : parse_datetime "02/28 24:00:00" = .ok ⟨2005, 3, 1, 0, 0, 0⟩ := rfl

/-! ## Python floats as exact rationals

The standard rational operations of Batteries (`Rat.add`, `Rat.mul`, ...)
are marked irreducible, so the embedding computes with `Rat.divInt` and
`mkRat` directly; the lemmas below identify these kernel-reducible
operations with the standard field operations, so theorem statements can
use the usual notation. -/

/-- Kernel-reducible rational addition. -/
def qAdd (a b : ℚ) : ℚ :=
  Rat.divInt (a.num * b.den + b.num * a.den) (a.den * b.den)

/-- Kernel-reducible rational multiplication. -/
def qMul (a b : ℚ) : ℚ := Rat.divInt (a.num * b.num) (a.den * b.den)

/-- Kernel-reducible rational division. -/
def qDiv (a b : ℚ) : ℚ := Rat.divInt (a.num * b.den) (a.den * b.num)

/-- Kernel-reducible rational negation. -/
def qNeg (a : ℚ) : ℚ := Rat.divInt (-a.num) a.den

/-- Kernel-reducible embedding of a natural number into the rationals. -/
def natQ (n : Nat) : ℚ := mkRat n 1

/-- Kernel-reducible rational power. -/
def qPow (a : ℚ) : Nat → ℚ
  | 0 => natQ 1
  | n + 1 => qMul a (qPow a n)

theorem qMul_eq (a b : ℚ) : qMul a b = a * b := by
  rw [qMul, ← Rat.divInt_mul_divInt', Rat.num_divInt_den, Rat.num_divInt_den]

theorem qAdd_eq (a b : ℚ) : qAdd a b = a + b := by
  have ha : ((a.den : ℤ)) ≠ 0 := Int.natCast_ne_zero.mpr a.den_ne_zero
  have hb : ((b.den : ℤ)) ≠ 0 := Int.natCast_ne_zero.mpr b.den_ne_zero
  rw [qAdd, ← Rat.divInt_add_divInt _ _ ha hb, Rat.num_divInt_den, Rat.num_divInt_den]

theorem qDiv_eq (a b : ℚ) : qDiv a b = a / b := by
  rw [qDiv, div_eq_mul_inv, Rat.inv_def',
    show ((a.den * b.num : ℤ)) = (a.den : ℤ) * b.num by ring,
    ← Rat.divInt_mul_divInt', Rat.num_divInt_den]

theorem qNeg_eq (a : ℚ) : qNeg a = -a := by
  rw [qNeg, ← Rat.neg_divInt, Rat.num_divInt_den]

theorem natQ_eq (n : Nat) : natQ n = (n : ℚ) := by
  rw [natQ, Rat.mkRat_eq_div]
  norm_num

theorem qPow_eq (a : ℚ) (n : Nat) : qPow a n = a ^ n := by
  induction n with
  | zero => simp [qPow, natQ_eq]
  | succ n ih => rw [qPow, qMul_eq, ih, pow_succ]; ring

/-- Greedy run of decimal digits: accumulated value, number of digits
consumed, and the remaining input. -/
def digitsAux (acc cnt : Nat) : List Char → Nat × Nat × List Char
  | c :: rest =>
    if c.isDigit then digitsAux (10 * acc + digitVal c) (cnt + 1) rest
    else (acc, cnt, c :: rest)
  | [] => (acc, cnt, [])

/-- Optional sign prefix: whether a minus sign was consumed, and the rest. -/
def parseSign : List Char → Bool × List Char
  | '+' :: rest => (false, rest)
  | '-' :: rest => (true, rest)
  | cs => (false, cs)

/-- Optional exponent suffix `e[sign]digits` applied to a mantissa; the
whole remaining input must be consumed. -/
def parseExpPart (mant : ℚ) : List Char → Option ℚ
  | [] => some mant
  | c :: rest =>
    if c = 'e' || c = 'E' then
      let sr := parseSign rest
      match digitsAux 0 0 sr.2 with
      | (_, 0, _) => none
      | (e, _ + 1, []) =>
        if sr.1 then some (qDiv mant (qPow (natQ 10) e))
        else some (qMul mant (qPow (natQ 10) e))
      | _ => none
    else none

/-- Model of Python `float(s)` on decimal literals, as an exact rational:
optional surrounding whitespace, optional sign, an integer part and/or a
fractional part (at least one digit between them), optional exponent.
Special floats (`inf`, `nan`, underscore separators) are outside the value
domain of this pipeline and are not modelled. -/
def pyFloat (s : String) : Option ℚ :=
  let sr := parseSign (pyStrip s).toList
  let mapSign : ℚ → ℚ := fun q => if sr.1 then qNeg q else q
  match digitsAux 0 0 sr.2 with
  | (ip, ic, '.' :: r2) =>
    match digitsAux 0 0 r2 with
    | (fp, fc, r3) =>
      if ic = 0 && fc = 0 then none
      else (parseExpPart (qAdd (natQ ip) (qDiv (natQ fp) (qPow (natQ 10) fc))) r3).map mapSign
  | (ip, ic, r1) =>
    if ic = 0 then none
    else (parseExpPart (natQ ip) r1).map mapSign

/-- Fallible wrapper: Python `float(s)` raises `ValueError` on strings with
non-numeric content. -/
def pyFloatE (s : String) : Except PyError ℚ :=
  match pyFloat s with
  | some q => .ok q
  | none => .error (.valueError s)

example : pyFloat "20.5" = some (mkRat 41 2) := by decide
example : pyFloat " -3.25 " = some (mkRat (-13) 4) := by decide
example : pyFloat "1e2" = some (mkRat 100 1) := by decide
example : pyFloat "2.5e-1" = some (mkRat 1 4) := by decide
example : pyFloat "1." = some (mkRat 1 1) := by decide
example : pyFloat ".5" = some (mkRat 1 2) := by decide
example : pyFloat "abc" = none := by decide
example : pyFloat "" = none := by decide
example : pyFloat "1.2.3" = none := by decide

/-- Round an integer fraction with positive denominator to the nearest
integer, ties to even — the rounding of Python `round` (idealized over
exact rationals rather than binary floats). -/
def roundHalfEvenInt (n d : ℤ) : ℤ :=
  let fl := Int.fdiv n d
  let rem := n - fl * d
  if 2 * rem < d then fl
  else if d < 2 * rem then fl + 1
  else if fl % 2 = 0 then fl else fl + 1

/-- Model of Python `round(x, 4)`: round to 4 decimal places, ties to
even. -/
def round4 (q : ℚ) : ℚ :=
  let s := qMul q (natQ 10000)
  mkRat (roundHalfEvenInt s.num s.den) 10000

example : round4 (mkRat 123456789 10000000) = mkRat 123457 10000 := by decide
example : round4 (mkRat 25 100000) = mkRat 2 10000 := by decide
example : round4 (mkRat 35 100000) = mkRat 4 10000 := by decide
example : round4 (mkRat (-25) 100000) = mkRat (-2) 10000 := by decide
example : round4 (mkRat 5 1) = mkRat 5 1 := by decide

/-! ## CSV rows and the fixed topology -/

/-- One CSV row as handed out by `csv.DictReader`: a finite mapping from
column name to cell string, modelled as an association list. -/
def Row := List (String × String)

/-- Dictionary membership and lookup, `key in row` / `row.get(key)`. -/
def rowGet? (r : Row) (k : String) : Option String :=
  (r.find? (fun kv => kv.1 == k)).map (fun kv => kv.2)

/-- Subscript lookup `row[key]`, raising `KeyError` when absent. -/
def rowGetE (r : Row) (k : String) : Except PyError String :=
  match rowGet? r k with
  | some v => .ok v
  | none => .error (.keyError k)

/-- Loop list `['BLOCK1', 'BLOCK2']` of `process_csv`. -/
def blocksList : List String := ["BLOCK1", "BLOCK2"]

/-- Loop list of zone orientations of `process_csv`. -/
def zonesList : List String :=
  ["OFFICEXSW", "OFFICEXSE", "OFFICEXNW", "OFFICEXNE", "CORRIDOR"]

/-- Loop list `['X1F', 'X2F']` of `process_csv`. -/
def floorsList : List String := ["X1F", "X2F"]

/-- One `(block, orientation, floor)` topology combination. -/
structure Combo where
  block : String
  zone : String
  floor : String
  deriving DecidableEq

/-- The 20 combinations in the deterministic nested-loop order of
`process_csv`: block outermost, then orientation, then floor. -/
def combos : List Combo :=
  blocksList.flatMap fun b =>
    zonesList.flatMap fun z =>
      floorsList.map fun f => ⟨b, z, f⟩

/-- The `zone_prefix` f-string of `process_csv`. -/
def zonePfx (c : Combo) : String := c.block ++ ":" ++ c.zone ++ c.floor

/-- The `temp_key` column probed to decide whether a combination is present
in the row. -/
def tempKey (c : Combo) : String := zonePfx c ++ ":Zone Mean Air Temperature"

/-- The `zone_id` tag value of a thermal-zone payload. -/
def zoneIdTag (c : Combo) : String := c.block ++ ":" ++ c.zone ++ ":" ++ c.floor

/-- The 12 thermal-zone payload fields, in the order of the dict literal of
`process_csv`, each paired with the source column it is read from. -/
def zoneCols (p : String) : List (String × String) :=
  [("mean_air_temperature", p ++ ":Zone Mean Air Temperature"),
   ("operative_temperature", p ++ ":Zone Operative Temperature"),
   ("air_relative_humidity", p ++ ":Zone Air Relative Humidity"),
   ("air_co2_concentration", p ++ ":Zone Air CO2 Concentration"),
   ("infiltration_air_change_rate", p ++ ":Zone Infiltration Air Change Rate"),
   ("mech_ventilation_air_changes", p ++ ":Zone Mechanical Ventilation Air Changes per Hour"),
   ("internal_latent_gain", p ++ ":Zone Total Internal Latent Gain Energy"),
   ("cooling_rate", p ++ " IDEAL LOADS AIR:Zone Ideal Loads Supply Air Total Cooling Rate"),
   ("heating_rate", p ++ " IDEAL LOADS AIR:Zone Ideal Loads Supply Air Total Heating Rate"),
   ("people_sensible_heat", p ++ ":Zone People Sensible Heating Rate"),
   ("thermal_comfort_pmv", "PEOPLE " ++ p ++ ":Zone Thermal Comfort Fanger Model PMV"),
   ("thermal_comfort_ppd", "PEOPLE " ++ p ++ ":Zone Thermal Comfort Fanger Model PPD")]

/-- The 5 site-metrics payload fields of `process_csv`, in dict-literal
order, each paired with its source column. -/
def siteCols : List (String × String) :=
  [("interior_lights_electricity", "InteriorLights:Electricity"),
   ("facility_electricity", "Electricity:Facility"),
   ("outdoor_air_temp", "Site Site Outdoor Air Drybulb Temperature"),
   ("diffuse_solar_radiation", "Site Site Diffuse Solar Radiation Rate per Area"),
   ("direct_solar_radiation", "Site Site Direct Solar Radiation Rate per Area")]

/-- The closed field vocabulary of the ThermalZone family (12 names). -/
def thermalFieldNames : List String := (zoneCols "").map (fun kv => kv.1)

/-- The closed field vocabulary of the SiteMetrics family (5 names). -/
def siteFieldNames : List String := siteCols.map (fun kv => kv.1)

/-- Effectful map over a list in `Except`, stopping at the first raised
exception — the evaluation order of a Python dict literal or `for` loop
whose entries can raise. -/
def exMap (f : α → Except PyError β) : List α → Except PyError (List β)
  | [] => .ok []
  | x :: xs => do
    let y ← f x
    let ys ← exMap f xs
    pure (y :: ys)

/-! ## Measurement events (the publisher side) -/

/-- A measurement event as serialized onto the wire by `process_csv`:
the JSON payload keys `measurement`, optional `tags.zone_id`, `time`
(ISO-8601 with `Z` suffix) and `fields`. -/
structure Payload where
  measurement : String
  zoneTag : Option String
  time : String
  fields : List (String × ℚ)
  deriving DecidableEq

/-- Zero-pad a numeral to two digits. -/
def pad2 (n : Nat) : String := if n < 10 then "0" ++ toString n else toString n

/-- The timestamp string `dt_obj.isoformat() + 'Z'` of `process_csv`. -/
def isoZ (dt : Datetime) : String :=
  toString dt.year ++ "-" ++ pad2 dt.month ++ "-" ++ pad2 dt.day ++ "T" ++
    pad2 dt.hour ++ ":" ++ pad2 dt.minute ++ ":" ++ pad2 dt.second ++ "Z"

example : isoZ ⟨2005, 1, 16, 0, 0, 0⟩ = "2005-01-16T00:00:00Z" := rfl

/-- Build the field map of one event by reading and float-coercing each
source column in dict-literal order; a missing column raises `KeyError`,
non-numeric content raises `ValueError`. -/
def mkFields (r : Row) (cols : List (String × String)) :
    Except PyError (List (String × ℚ)) :=
  exMap (fun nc => do
    let s ← rowGetE r nc.2
    let q ← pyFloatE s
    pure (nc.1, q)) cols

/-- The thermal-zone payload built by `process_csv` for one combination
(lines 44-72 of src/src/publisher.py). -/
def mkZoneEvent (r : Row) (ts : String) (c : Combo) : Except PyError Payload := do
  let fs ← mkFields r (zoneCols (zonePfx c))
  pure ⟨"thermal_zone", some (zoneIdTag c), ts, fs⟩

/-- The site-metrics payload built by `process_csv` for one row (lines
77-87 of src/src/publisher.py). -/
def mkSiteEvent (r : Row) (ts : String) : Except PyError Payload := do
  let fs ← mkFields r siteCols
  pure ⟨"site_metrics", none, ts, fs⟩

/-- Presence test `temp_key in row` deciding whether a combination is
populated in this row. -/
def tempPresent (r : Row) (c : Combo) : Bool := (rowGet? r (tempKey c)).isSome

/-- The inner triple loop of `process_csv` over the given combinations:
already-published payloads are kept; the first uncaught exception (missing
required column or non-numeric content, there is no try/except around the
payload construction) aborts the loop and propagates. -/
def processCombos (r : Row) (ts : String) : List Combo → List Payload × Option PyError
  | [] => ([], none)
  | c :: cs =>
    if tempPresent r c then
      match mkZoneEvent r ts c with
      | .error e => ([], some e)
      | .ok pl =>
        match processCombos r ts cs with
        | (ps, err) => (pl :: ps, err)
    else processCombos r ts cs

/-- One iteration of the row loop of `process_csv`: parse the timestamp
(a `ValueError` is caught and the row skipped), publish the per-combination
thermal events, then the single site event.  The second component is the
uncaught exception, if any, that propagates out of `process_csv`. -/
def processRow (r : Row) : List Payload × Option PyError :=
  match rowGet? r "DateTime" with
  | none => ([], some (.keyError "DateTime"))
  | some dts =>
    match parse_datetime dts with
    | .error _ => ([], none)
    | .ok dt =>
      let ts := isoZ dt
      match processCombos r ts combos with
      | (evs, some e) => (evs, some e)
      | (evs, none) =>
        match mkSiteEvent r ts with
        | .error e => (evs, some e)
        | .ok sp => (evs ++ [sp], none)

/-- Embedding of `PublishMetrics.process_csv` over the list of CSV rows:
publishes events row by row; the first uncaught exception aborts the whole
batch (only `ValueError` from the timestamp parse is caught). -/
def process_csv : List Row → List Payload × Option PyError
  | [] => ([], none)
  | r :: rest =>
    match processRow r with
    | (evs, some e) => (evs, some e)
    | (evs, none) =>
      match process_csv rest with
      | (evs2, err) => (evs ++ evs2, err)

/-! ## The wire format and the subscriber/writer -/

/-- JSON values, the wire format produced by `json.dumps` and consumed by
`json.loads`. -/
inductive Json where
  | null
  | bool (b : Bool)
  | num (q : ℚ)
  | str (s : String)
  | arr (xs : List Json)
  | obj (kvs : List (String × Json))

/-- Serialization of a published payload onto the wire, with the JSON keys
in the literal order of `process_csv` (`tags` present exactly when the
payload carries a `zone_id`, i.e. for the thermal family). -/
def payloadToJson (pl : Payload) : Json :=
  match pl.zoneTag with
  | some z =>
    .obj [("measurement", .str pl.measurement),
          ("tags", .obj [("zone_id", .str z)]),
          ("time", .str pl.time),
          ("fields", .obj (pl.fields.map (fun kv => (kv.1, .num kv.2))))]
  | none =>
    .obj [("measurement", .str pl.measurement),
          ("time", .str pl.time),
          ("fields", .obj (pl.fields.map (fun kv => (kv.1, .num kv.2))))]

/-- Python subscript `data[k]` on a decoded JSON value: `KeyError` when the
key is absent, `TypeError` when the value is not an object. -/
def jsonGet (j : Json) (k : String) : Except PyError Json :=
  match j with
  | .obj kvs =>
    match (kvs.find? (fun kv => kv.1 == k)).map (fun kv => kv.2) with
    | some v => .ok v
    | none => .error (.keyError k)
  | _ => .error (.typeError k)

/-- Coerce a JSON value to the string the Influx client expects for
measurement names, tag values and timestamps (non-strings are rejected by
the client at serialization time, modelled as a `TypeError`). -/
def jsonStr (j : Json) : Except PyError String :=
  match j with
  | .str s => .ok s
  | _ => .error (.typeError "str")

/-- The key/value pairs of `data.items()`; on a non-object this raises
(`AttributeError` in Python, folded into `TypeError` here). -/
def jsonItems (j : Json) : Except PyError (List (String × Json)) :=
  match j with
  | .obj kvs => .ok kvs
  | _ => .error (.typeError "items")

/-- Python `float(value)` on a decoded JSON value: numbers pass through,
strings are parsed, booleans coerce to 0 or 1, anything else raises
`TypeError`. -/
def jsonToFloat (j : Json) : Except PyError ℚ :=
  match j with
  | .num q => .ok q
  | .str s => pyFloatE s
  | .bool b => .ok (if b then natQ 1 else natQ 0)
  | _ => .error (.typeError "float")

/-- An InfluxDB point as assembled by the subscriber before the store
write: measurement name, tags, the timestamp string, and the field map. -/
structure Point where
  measurement : String
  tags : List (String × String)
  time : String
  fields : List (String × ℚ)
  deriving DecidableEq

/-- The body of the `try` block of
`InfluxDBStorage.write_thermal_zone_data` (src/src/subscriber.py lines
52-60): build the point from the payload — measurement, the `zone_id` tag,
the timestamp, then every entry of `data["fields"]` with
`round(float(value), 4)`, with no field-name validation. -/
def write_thermal_zone_core (data : Json) : Except PyError Point := do
  let meas ← jsonGet data "measurement" >>= jsonStr
  let tags ← jsonGet data "tags"
  let zid ← jsonGet tags "zone_id" >>= jsonStr
  let tm ← jsonGet data "time" >>= jsonStr
  let fobj ← jsonGet data "fields"
  let kvs ← jsonItems fobj
  let fs ← exMap (fun kv => do
    let q ← jsonToFloat kv.2
    pure (kv.1, round4 q)) kvs
  pure ⟨meas, [("zone_id", zid)], tm, fs⟩

/-- The body of the `try` block of
`InfluxDBStorage.write_site_metrics_data` (src/src/subscriber.py lines
67-74): as for thermal zones but without the tag. -/
def write_site_metrics_core (data : Json) : Except PyError Point := do
  let meas ← jsonGet data "measurement" >>= jsonStr
  let tm ← jsonGet data "time" >>= jsonStr
  let fobj ← jsonGet data "fields"
  let kvs ← jsonItems fobj
  let fs ← exMap (fun kv => do
    let q ← jsonToFloat kv.2
    pure (kv.1, round4 q)) kvs
  pure ⟨meas, [], tm, fs⟩

/-- Result of handling one delivered message: the written point, if any,
and the log lines printed. -/
structure HandlerResult where
  written : Option Point
  logs : List String
  deriving DecidableEq

/-- Embedding of `InfluxDBStorage.write_thermal_zone_data` including its
catch-all `except`: an exception inside the build-and-write is logged and
the point dropped. -/
def write_thermal_zone_data (data : Json) : HandlerResult :=
  match write_thermal_zone_core data with
  | .ok pt => ⟨some pt, ["Written thermal zone data!"]⟩
  | .error _ => ⟨none, ["Error writing thermal zone data"]⟩

/-- Embedding of `InfluxDBStorage.write_site_metrics_data` including its
catch-all `except`. -/
def write_site_metrics_data (data : Json) : HandlerResult :=
  match write_site_metrics_core data with
  | .ok pt => ⟨some pt, ["Written site metrics data!"]⟩
  | .error _ => ⟨none, ["Error writing site metrics"]⟩

/-- One delivered MQTT message: its topic and its payload after
`message.payload.decode("utf-8")` and `json.loads`; `none` models bytes
that fail to decode or parse. -/
structure Message where
  topic : String
  payload : Option Json

/-- The body of the `try` block of `InfluxDBStorage.on_message_received`
(src/src/subscriber.py lines 37-43): decode, then dispatch on the topic;
a message on any other topic is ignored. -/
def onMessageCore (m : Message) : Except PyError HandlerResult :=
  match m.payload with
  | none => .error (.jsonDecodeError "invalid payload")
  | some j =>
    if m.topic = "building/thermal_zones_metrics" then
      .ok (write_thermal_zone_data j)
    else if m.topic = "building/site_metrics" then
      .ok (write_site_metrics_data j)
    else .ok ⟨none, []⟩

/-- Embedding of `InfluxDBStorage.on_message_received` with exception
semantics made explicit: were any exception to escape the two `except`
clauses, it would surface as `.error` and crash the subscription loop. -/
def on_message_received (m : Message) : Except PyError HandlerResult :=
  match onMessageCore m with
  | .ok res => .ok res
  | .error (.jsonDecodeError _) => .ok ⟨none, ["Error decoding JSON"]⟩
  | .error _ => .ok ⟨none, ["Error processing message"]⟩

/-- The subscription loop: the transport delivers messages one at a time to
the handler; the loop survives precisely as long as no handler invocation
raises. -/
def runSubscribeLoop : List Message → List (Except PyError HandlerResult)
  | [] => []
  | m :: ms => on_message_received m :: runSubscribeLoop ms

/-! ## The time-series store and the query/reshape layer

The store is the black box of the spec: a collection of tagged points with
range queries and deletion by predicate, modelled as a list of points whose
timestamps are seconds since the Unix epoch.  Each stored point has a
unique `(measurement, zone tag, time)` key (the overwrite contract of the
store), so one stored point yields exactly one pivoted Flux record. -/

/-- One persisted point. -/
structure StorePoint where
  measurement : String
  zoneId : Option String
  time : ℤ
  fields : List (String × ℚ)
  deriving DecidableEq

/-- Lookup of one field value of a point. -/
def fieldsGet (fs : List (String × ℚ)) (n : String) : Option ℚ :=
  (fs.find? (fun kv => kv.1 == n)).map (fun kv => kv.2)

/-- Flux `range(start: t0, stop: t1)`: start inclusive, stop exclusive. -/
def inRange (t0 t1 t : ℤ) : Bool := decide (t0 ≤ t) && decide (t < t1)

/-- The Flux zone filter `r.zone_id == "{zone_id}"` when a zone id is
given, `true` otherwise. -/
def zoneFilter (zone : Option String) (p : StorePoint) : Bool :=
  match zone with
  | none => true
  | some z => p.zoneId == some z

/-- A value in one Flux result record. -/
inductive FluxVal where
  | i (t : ℤ)
  | q (x : ℚ)
  | s (v : String)
  deriving DecidableEq

/-- One Flux result record: the column values kept by the query, as exposed
through `record.values`. -/
abbrev FluxRecord := List (String × FluxVal)

/-- Subscript access `record["k"]` of the Influx client
(`FluxRecord.__getitem__` delegates to `values.__getitem__`): raises
`KeyError` when the column is absent from the record. -/
def recGet (r : FluxRecord) (k : String) : Except PyError FluxVal :=
  match (r.find? (fun kv => kv.1 == k)).map (fun kv => kv.2) with
  | some v => .ok v
  | none => .error (.keyError k)

/-- The record produced for one site point by `build_site_metrics_query`:
the query pivots on `_field` and then keeps only `_time` and the five field
columns, so the pivoted record carries no `_field` column. -/
def sitePivotRecord (p : StorePoint) : FluxRecord :=
  ("_time", .i p.time) ::
    siteFieldNames.filterMap (fun n => (fieldsGet p.fields n).map (fun v => (n, FluxVal.q v)))

/-- Result records of `build_site_metrics_query` over the store. -/
def siteQueryRecords (st : List StorePoint) (t0 t1 : ℤ) : List FluxRecord :=
  (st.filter (fun p => p.measurement == "site_metrics" && inRange t0 t1 p.time)).map
    sitePivotRecord

/-- The thermal-zone points selected by `build_thermal_zone_query`. -/
def thermalQueryPoints (st : List StorePoint) (zone : Option String) (t0 t1 : ℤ) :
    List StorePoint :=
  st.filter (fun p =>
    p.measurement == "thermal_zone" && zoneFilter zone p && inRange t0 t1 p.time)

/-- The site-metrics points selected by `build_site_metrics_query`. -/
def siteQueryPoints (st : List StorePoint) (t0 t1 : ℤ) : List StorePoint :=
  st.filter (fun p => p.measurement == "site_metrics" && inRange t0 t1 p.time)

/-- The `ThermalZoneData` response model of the API (src/src/fast_api/api.py
lines 18-32). -/
structure ThermalZoneData where
  zone_id : String
  time : ℤ
  mean_air_temperature : Option ℚ
  operative_temperature : Option ℚ
  air_relative_humidity : Option ℚ
  air_co2_concentration : Option ℚ
  infiltration_air_change_rate : Option ℚ
  mech_ventilation_air_changes : Option ℚ
  internal_latent_gain : Option ℚ
  cooling_rate : Option ℚ
  heating_rate : Option ℚ
  people_sensible_heat : Option ℚ
  thermal_comfort_pmv : Option ℚ
  thermal_comfort_ppd : Option ℚ
  deriving DecidableEq

/-- The `SiteMetricsData` response model of the API (src/src/fast_api/api.py
lines 35-41). -/
structure SiteMetricsData where
  time : ℤ
  interior_lights_electricity : Option ℚ
  facility_electricity : Option ℚ
  outdoor_air_temp : Option ℚ
  diffuse_solar_radiation : Option ℚ
  direct_solar_radiation : Option ℚ
  deriving DecidableEq

/-- Embedding of `process_thermal_zone_data`: one response record per
pivoted record; `row.values["zone_id"]` raises `KeyError` on a point
without the tag, the field columns are read with `.get` (absent stays
absent). -/
def process_thermal_zone_data (pts : List StorePoint) :
    Except PyError (List ThermalZoneData) :=
  exMap (fun p => do
    let zid ← match p.zoneId with
      | some z => Except.ok z
      | none => Except.error (.keyError "zone_id")
    pure ⟨zid, p.time,
      fieldsGet p.fields "mean_air_temperature",
      fieldsGet p.fields "operative_temperature",
      fieldsGet p.fields "air_relative_humidity",
      fieldsGet p.fields "air_co2_concentration",
      fieldsGet p.fields "infiltration_air_change_rate",
      fieldsGet p.fields "mech_ventilation_air_changes",
      fieldsGet p.fields "internal_latent_gain",
      fieldsGet p.fields "cooling_rate",
      fieldsGet p.fields "heating_rate",
      fieldsGet p.fields "people_sensible_heat",
      fieldsGet p.fields "thermal_comfort_pmv",
      fieldsGet p.fields "thermal_comfort_ppd"⟩) pts

/-- Embedding of `process_site_metrics_data`: every access uses `.get`,
nothing can raise. -/
def process_site_metrics_data (pts : List StorePoint) : List SiteMetricsData :=
  pts.map (fun p =>
    ⟨p.time,
      fieldsGet p.fields "interior_lights_electricity",
      fieldsGet p.fields "facility_electricity",
      fieldsGet p.fields "outdoor_air_temp",
      fieldsGet p.fields "diffuse_solar_radiation",
      fieldsGet p.fields "direct_solar_radiation"⟩)

/-- One element of the combined `GET /data/` response. -/
inductive DataRec where
  | thermal (d : ThermalZoneData)
  | site (d : SiteMetricsData)
  deriving DecidableEq

/-- Whether a response element belongs to the thermal family. -/
def DataRec.isThermal : DataRec → Bool
  | .thermal _ => true
  | .site _ => false

/-- Embedding of the `GET /data/` endpoint `get_data` (src/src/fast_api/
api.py lines 135-173): the thermal branch runs for `data_type` equal to
`"thermal_zone"` or absent and returns early in the former case; the site
branch likewise; with `data_type` absent the two lists are concatenated,
thermal first.  Store errors surface as `.error` (the HTTP 500 path). -/
def get_data (st : List StorePoint) (data_type zone : Option String) (t0 t1 : ℤ) :
    Except PyError (List DataRec) :=
  if data_type = some "thermal_zone" then do
    let l ← process_thermal_zone_data (thermalQueryPoints st zone t0 t1)
    pure (l.map DataRec.thermal)
  else if data_type = some "site_metrics" then
    pure ((process_site_metrics_data (siteQueryPoints st t0 t1)).map DataRec.site)
  else if data_type = none then do
    let l ← process_thermal_zone_data (thermalQueryPoints st zone t0 t1)
    pure (l.map DataRec.thermal ++
      (process_site_metrics_data (siteQueryPoints st t0 t1)).map DataRec.site)
  else pure []

/-! ## The aligned temperature fetch -/

/-- Python dict insertion: an existing key keeps its position and takes the
new value, a new key is appended. -/
def dictInsert [BEq κ] (k : κ) (v : α) : List (κ × α) → List (κ × α)
  | [] => [(k, v)]
  | kv :: rest => if kv.1 == k then (k, v) :: rest else kv :: dictInsert k v rest

/-- Python `d.get(k)`. -/
def dictGet [BEq κ] (d : List (κ × α)) (k : κ) : Option α :=
  (d.find? (fun kv => kv.1 == k)).map (fun kv => kv.2)

/-- The outdoor-temperature dict comprehension of `get_temperatures`
(src/src/fast_api/api.py lines 199-202): for each record of the pivoted
site query, the guard evaluates `record.get_field()` — a `__getitem__` on
the `_field` column — before the key and value expressions.  The
comprehension builds its dict in delivery order with overwrite on duplicate
timestamps. -/
def outdoorTempsOfRecords (acc : List (ℤ × ℚ)) :
    List FluxRecord → Except PyError (List (ℤ × ℚ))
  | [] => .ok acc
  | rec :: rest => do
    let fv ← recGet rec "_field"
    if fv == .s "outdoor_air_temp" then
      let tv ← recGet rec "_time"
      let vv ← recGet rec "_value"
      match tv, vv with
      | .i t, .q v => outdoorTempsOfRecords (dictInsert t v acc) rest
      | _, _ => .error (.typeError "record")
    else outdoorTempsOfRecords acc rest

/-- One record of the (non-pivoted) indoor query of `get_temperatures`:
`keep(columns: ["_time", "_value", "zone_id"])`; `zone_id` is read with
`.get`, so its absence yields `None` rather than an error. -/
structure IndoorRec where
  time : ℤ
  value : ℚ
  zoneId : Option String
  deriving DecidableEq

/-- Result records of the indoor `mean_air_temperature` query: one record
per thermal point in range carrying that field. -/
def indoorQueryRecords (st : List StorePoint) (zone : Option String) (t0 t1 : ℤ) :
    List IndoorRec :=
  st.filterMap (fun p =>
    if p.measurement == "thermal_zone" && zoneFilter zone p && inRange t0 t1 p.time then
      (fieldsGet p.fields "mean_air_temperature").map (fun v => ⟨p.time, v, p.zoneId⟩)
    else none)

/-- The nested dict `indoor_temps_by_time` built by `get_temperatures`
(lines 216-222): outer key the timestamp, inner dict from zone id to
temperature, both with Python insertion semantics. -/
def indoorByTime (recs : List IndoorRec) : List (ℤ × List (Option String × ℚ)) :=
  recs.foldl (fun acc r =>
    match dictGet acc r.time with
    | some inner => dictInsert r.time (dictInsert r.zoneId r.value inner) acc
    | none => dictInsert r.time [(r.zoneId, r.value)] acc) []

/-- Insertion into a sorted list of timestamps. -/
def insertSorted (x : ℤ) : List ℤ → List ℤ
  | [] => [x]
  | y :: ys => if x ≤ y then x :: y :: ys else y :: insertSorted x ys

/-- Model of Python `sorted(...)` on timestamps. -/
def sortInts (l : List ℤ) : List ℤ := l.foldr insertSorted []

/-- Sum of a list of rationals. -/
def listSumQ : List ℚ → ℚ
  | [] => natQ 0
  | x :: xs => qAdd x (listSumQ xs)

/-- Model of `statistics.mean` (exact over rationals). -/
def pyMean (l : List ℚ) : ℚ := qDiv (listSumQ l) (natQ l.length)

/-- The indoor slot of one aligned response row: the zone-to-temperature
mapping, or the aggregated mean. -/
inductive IndoorVal where
  | byZone (m : List (Option String × ℚ))
  | agg (x : ℚ)
  deriving DecidableEq

/-- The `TimestepTemperature` response model of the API (lines 49-52). -/
structure TimestepTemperature where
  time : ℤ
  outdoor_temp : Option ℚ
  indoor_temps : Option IndoorVal
  deriving DecidableEq

/-- Embedding of the `GET /temperatures/` endpoint `get_temperatures`
(src/src/fast_api/api.py lines 177-248): outdoor temperatures from the
pivoted site query filtered through `record.get_field()`, indoor
temperatures from the non-pivoted zone query, one response row per
timestamp of the union in sorted order.  A raised exception surfaces as
`.error` (the HTTP 500 path). -/
def get_temperatures (st : List StorePoint) (zone : Option String) (t0 t1 : ℤ)
    (aggregate : Bool) : Except PyError (List TimestepTemperature) := do
  let od ← outdoorTempsOfRecords [] (siteQueryRecords st t0 t1)
  let ind := indoorByTime (indoorQueryRecords st zone t0 t1)
  let times := sortInts ((od.map (fun kv => kv.1) ++ ind.map (fun kv => kv.1)).dedup)
  pure (times.map (fun t =>
    let indoorData : Option IndoorVal :=
      match dictGet ind t with
      | none => none
      | some zmap =>
        if aggregate then
          let temps := zmap.map (fun kv => kv.2)
          if temps.isEmpty then none else some (.agg (pyMean temps))
        else some (.byZone zmap)
    ⟨t, dictGet od t, indoorData⟩))

/-! ## Delete-all -/

/-- Seconds from the Unix epoch to 2100-01-01T00:00:00Z, the fixed `stop`
bound of the delete call. -/
def stop2100 : ℤ := 4102444800

/-- Embedding of the `DELETE /data/` endpoint `delete_all_data`
(src/src/fast_api/api.py lines 252-267): delete every point matching the
predicate `_measurement="thermal_zone" or _measurement="site_metrics"`
with timestamp in `[1970-01-01, 2100-01-01)`. -/
def delete_all_data (st : List StorePoint) : List StorePoint :=
  st.filter (fun p =>
    !((p.measurement == "thermal_zone" || p.measurement == "site_metrics") &&
      inRange 0 stop2100 p.time))

/-! ## Helper lemmas -/

theorem exMap_ok_forall₂ {α β : Type} (f : α → Except PyError β) :
    ∀ {xs : List α} {ys : List β}, exMap f xs = .ok ys →
      List.Forall₂ (fun x y => f x = .ok y) xs ys := by
  intro xs
  induction xs with
  | nil =>
    intro ys h
    simp only [exMap, Except.ok.injEq] at h
    subst h
    exact .nil
  | cons x xs ih =>
    intro ys h
    simp only [exMap, bind, Except.bind] at h
    cases hfx : f x with
    | error e => rw [hfx] at h; cases h
    | ok y =>
      rw [hfx] at h
      cases hxs : exMap f xs with
      | error e => rw [hxs] at h; cases h
      | ok ys2 =>
        rw [hxs] at h
        simp only [pure, Except.pure, Except.ok.injEq] at h
        subst h
        exact .cons hfx (ih hxs)

theorem forall₂_exists_of_mem {α β : Type} {R : α → β → Prop} :
    ∀ {xs : List α} {ys : List β}, List.Forall₂ R xs ys →
      ∀ {x : α}, x ∈ xs → ∃ y, R x y := by
  intro xs ys h
  induction h with
  | nil => intro x hx; cases hx
  | cons hR _ ih =>
    intro x hx
    cases hx with
    | head => exact ⟨_, hR⟩
    | tail _ hx => exact ih hx

theorem exMap_ok_of_mem {α β : Type} (f : α → Except PyError β) {xs : List α}
    {ys : List β} (h : exMap f xs = .ok ys) {x : α} (hx : x ∈ xs) :
    ∃ y, f x = .ok y :=
  forall₂_exists_of_mem (exMap_ok_forall₂ f h) hx

/-! ## Claim theorems -/

/-- C10: the year-boundary edge of the 24:00:00 normalization.
`parse_datetime "12/31 24:00:00"` parses only the date portion, adds one
day (wrapping past December 31), and only then substitutes the fixed year,
so the result is January 1, 00:00:00 of the same reference year 2005, not
of the following year. -/
theorem c10_year_boundary_wrap :
    parse_datetime "12/31 24:00:00" = .ok ⟨2005, 1, 1, 0, 0, 0⟩ := rfl

/-- C5: normalization of the 24:00:00 special case.  Applied to the string
`"01/15 24:00:00"`, `parse_datetime` returns 01/16 00:00:00 of the fixed
reference year 2005, obtained by parsing only the date portion and adding
one day; and any other string that neither matches the
`month/day hour:minute:second` format nor is handled by the 24:00:00
special case raises a `ValueError`. -/
theorem c5_parse_datetime_spec :
    parse_datetime "01/15 24:00:00" = .ok ⟨2005, 1, 16, 0, 0, 0⟩ ∧
    ∀ s : String, strptimeMDHMS (pyStrip s) = none →
      ¬(strEndsWith (pyStrip s) "24:00:00" = true ∧
        (strptimeMD (firstToken (pyStrip s))).isSome = true) →
      ∃ msg, parse_datetime s = .error (.valueError msg) := by
  refine ⟨rfl, ?_⟩
  intro s h1 h2
  simp only [parse_datetime, h1]
  by_cases he : strEndsWith (pyStrip s) "24:00:00" = true
  · rw [if_pos he]
    cases hm : strptimeMD (firstToken (pyStrip s)) with
    | none => exact ⟨_, rfl⟩
    | some md => exact absurd ⟨he, by rw [hm]; rfl⟩ h2
  · rw [if_neg he]
    exact ⟨_, rfl⟩

/-- C5 witness: the concrete string `"not a date"` matches neither the
format nor the special case and raises `ValueError`. -/
theorem c5_parse_datetime_spec_witness :
    ∃ msg, parse_datetime "not a date" = .error (.valueError msg) :=
  c5_parse_datetime_spec.2 "not a date" (by decide) (by decide)

/-- C9: consume-side robustness.  For every delivered message — including
undecodable payloads, payloads missing the `measurement`/`tags`/`fields`
keys, and non-numeric field values — the message handler returns normally
(never `.error`, i.e. no exception escapes its `except` clauses), and the
subscription loop continues with the remaining messages. -/
theorem c9_handler_never_raises (m : Message) (ms : List Message) :
    ∃ res : HandlerResult, on_message_received m = .ok res ∧
      runSubscribeLoop (m :: ms) = .ok res :: runSubscribeLoop ms := by
  have h : ∃ res, on_message_received m = .ok res := by
    unfold on_message_received
    cases h : onMessageCore m with
    | ok r => exact ⟨r, rfl⟩
    | error e => cases e <;> exact ⟨_, rfl⟩
  obtain ⟨res, hres⟩ := h
  exact ⟨res, hres, by simp only [runSubscribeLoop, hres]⟩

/-- A thermal-zone payload carrying the field name `bogus_field`, which is
outside the 12-name vocabulary of the ThermalZone family. -/
def bogusPayload : Json :=
  .obj [("measurement", .str "thermal_zone"),
        ("tags", .obj [("zone_id", .str "BLOCK1:OFFICEXSW:X1F")]),
        ("time", .str "2005-01-01T01:00:00Z"),
        ("fields", .obj [("bogus_field", .num (natQ 1))])]

/-- C3 counterexample: the subscriber/writer performs no validation of
field names against the family vocabulary — a payload whose `fields`
object carries the unknown name `bogus_field` is written successfully and
the unknown field is silently stored in the point. -/
theorem c3_counterexample :
    ∃ pt, write_thermal_zone_core bogusPayload = .ok pt ∧
      fieldsGet pt.fields "bogus_field" = some (natQ 1) ∧
      "bogus_field" ∉ thermalFieldNames ∧
      (write_thermal_zone_data bogusPayload).written = some pt := by
  refine ⟨⟨"thermal_zone", [("zone_id", "BLOCK1:OFFICEXSW:X1F")],
    "2005-01-01T01:00:00Z", [("bogus_field", natQ 1)]⟩, ?_, ?_, ?_, ?_⟩
  · decide
  · decide
  · decide
  · decide

/-- First component of a successful per-field write step: the stored field
keeps the payload field name. -/
theorem roundFieldStep_fst (kv : String × Json) (y : String × ℚ)
    (h : (do
        let q ← jsonToFloat kv.2
        pure (kv.1, round4 q) : Except PyError (String × ℚ)) = .ok y) :
    y.1 = kv.1 := by
  cases hq : jsonToFloat kv.2 with
  | error e => simp only [bind, Except.bind, hq] at h; cases h
  | ok q =>
    simp only [bind, Except.bind, hq, pure, Except.pure, Except.ok.injEq] at h
    subst h
    rfl

theorem exBind_ok {α β : Type} (a : α) (f : α → Except PyError β) :
    (Except.ok a >>= f) = f a := rfl

theorem exBind_err {α β : Type} (e : PyError) (f : α → Except PyError β) :
    ((Except.error e : Except PyError α) >>= f) = .error e := rfl

theorem roundFields_names_aux :
    ∀ {kvs : List (String × Json)} {fs : List (String × ℚ)},
      List.Forall₂ (fun (kv : String × Json) (y : String × ℚ) =>
        (do
          let q ← jsonToFloat kv.2
          pure (kv.1, round4 q) : Except PyError (String × ℚ)) = .ok y) kvs fs →
      fs.map Prod.fst = kvs.map Prod.fst := by
  intro kvs fs h
  induction h with
  | nil => rfl
  | cons hxy _ ih =>
    simp only [List.map_cons, ih, roundFieldStep_fst _ _ hxy]

theorem roundFields_names (kvs : List (String × Json)) (fs : List (String × ℚ))
    (h : exMap (fun kv => do
        let q ← jsonToFloat kv.2
        pure (kv.1, round4 q)) kvs = .ok fs) :
    fs.map Prod.fst = kvs.map Prod.fst :=
  roundFields_names_aux (exMap_ok_forall₂ _ h)

/-- Decompose a successful `write_thermal_zone_core` into its steps. -/
theorem write_thermal_core_ok_elim (data : Json) (pt : Point)
    (h : write_thermal_zone_core data = .ok pt) :
    ∃ kvs, jsonGet data "fields" = .ok (.obj kvs) ∧
      exMap (fun kv => do
        let q ← jsonToFloat kv.2
        pure (kv.1, round4 q)) kvs = .ok pt.fields := by
  unfold write_thermal_zone_core at h
  cases h1 : jsonGet data "measurement" >>= jsonStr with
  | error e => simp only [h1, exBind_err] at h; exact Except.noConfusion h
  | ok meas =>
  simp only [h1, exBind_ok] at h
  cases h2 : jsonGet data "tags" with
  | error e => simp only [h2, exBind_err] at h; exact Except.noConfusion h
  | ok tags =>
  simp only [h2, exBind_ok] at h
  cases h3 : jsonGet tags "zone_id" >>= jsonStr with
  | error e => simp only [h3, exBind_err] at h; exact Except.noConfusion h
  | ok zid =>
  simp only [h3, exBind_ok] at h
  cases h4 : jsonGet data "time" >>= jsonStr with
  | error e => simp only [h4, exBind_err] at h; exact Except.noConfusion h
  | ok tm =>
  simp only [h4, exBind_ok] at h
  cases h5 : jsonGet data "fields" with
  | error e => simp only [h5, exBind_err] at h; exact Except.noConfusion h
  | ok fobj =>
  simp only [h5, exBind_ok] at h
  cases h6 : jsonItems fobj with
  | error e => simp only [h6, exBind_err] at h; exact Except.noConfusion h
  | ok kvs =>
  simp only [h6, exBind_ok] at h
  cases h7 : exMap (fun kv => do
      let q ← jsonToFloat kv.2
      pure (kv.1, round4 q)) kvs with
  | error e => simp only [h7, exBind_err] at h; exact Except.noConfusion h
  | ok fs =>
  simp only [h7, exBind_ok] at h
  simp only [pure, Except.pure, Except.ok.injEq] at h
  subst h
  cases fobj with
  | obj kvs2 =>
    simp only [jsonItems, Except.ok.injEq] at h6
    subst h6
    exact ⟨kvs2, rfl, h7⟩
  | null => exact Except.noConfusion h6
  | bool b => exact Except.noConfusion h6
  | num q => exact Except.noConfusion h6
  | str s => exact Except.noConfusion h6
  | arr xs => exact Except.noConfusion h6

/-- Decompose a successful `write_site_metrics_core` into its steps. -/
theorem write_site_core_ok_elim (data : Json) (pt : Point)
    (h : write_site_metrics_core data = .ok pt) :
    ∃ kvs, jsonGet data "fields" = .ok (.obj kvs) ∧
      exMap (fun kv => do
        let q ← jsonToFloat kv.2
        pure (kv.1, round4 q)) kvs = .ok pt.fields := by
  unfold write_site_metrics_core at h
  cases h1 : jsonGet data "measurement" >>= jsonStr with
  | error e => simp only [h1, exBind_err] at h; exact Except.noConfusion h
  | ok meas =>
  simp only [h1, exBind_ok] at h
  cases h4 : jsonGet data "time" >>= jsonStr with
  | error e => simp only [h4, exBind_err] at h; exact Except.noConfusion h
  | ok tm =>
  simp only [h4, exBind_ok] at h
  cases h5 : jsonGet data "fields" with
  | error e => simp only [h5, exBind_err] at h; exact Except.noConfusion h
  | ok fobj =>
  simp only [h5, exBind_ok] at h
  cases h6 : jsonItems fobj with
  | error e => simp only [h6, exBind_err] at h; exact Except.noConfusion h
  | ok kvs =>
  simp only [h6, exBind_ok] at h
  cases h7 : exMap (fun kv => do
      let q ← jsonToFloat kv.2
      pure (kv.1, round4 q)) kvs with
  | error e => simp only [h7, exBind_err] at h; exact Except.noConfusion h
  | ok fs =>
  simp only [h7, exBind_ok] at h
  simp only [pure, Except.pure, Except.ok.injEq] at h
  subst h
  cases fobj with
  | obj kvs2 =>
    simp only [jsonItems, Except.ok.injEq] at h6
    subst h6
    exact ⟨kvs2, rfl, h7⟩
  | null => exact Except.noConfusion h6
  | bool b => exact Except.noConfusion h6
  | num q => exact Except.noConfusion h6
  | str s => exact Except.noConfusion h6
  | arr xs => exact Except.noConfusion h6

/-- C3 amended: for both families, a successfully written point stores
exactly the field names of the payload, whatever they are — the writer
never rejects or filters an unknown field name. -/
theorem c3_no_field_validation :
    (∀ data pt, write_thermal_zone_core data = .ok pt →
      ∃ kvs, jsonGet data "fields" = .ok (.obj kvs) ∧
        pt.fields.map Prod.fst = kvs.map Prod.fst) ∧
    (∀ data pt, write_site_metrics_core data = .ok pt →
      ∃ kvs, jsonGet data "fields" = .ok (.obj kvs) ∧
        pt.fields.map Prod.fst = kvs.map Prod.fst) := by
  constructor
  · intro data pt h
    obtain ⟨kvs, hget, hmap⟩ := write_thermal_core_ok_elim data pt h
    exact ⟨kvs, hget, roundFields_names kvs pt.fields hmap⟩
  · intro data pt h
    obtain ⟨kvs, hget, hmap⟩ := write_site_core_ok_elim data pt h
    exact ⟨kvs, hget, roundFields_names kvs pt.fields hmap⟩

/-- C3 amended witness: at the concrete unknown-field payload, the stored
point carries exactly the name `bogus_field`. -/
theorem c3_no_field_validation_witness :
    ∃ kvs, jsonGet bogusPayload "fields" = .ok (.obj kvs) ∧
      (Point.mk "thermal_zone" [("zone_id", "BLOCK1:OFFICEXSW:X1F")]
        "2005-01-01T01:00:00Z" [("bogus_field", natQ 1)]).fields.map Prod.fst =
        kvs.map Prod.fst :=
  c3_no_field_validation.1 bogusPayload _ (by decide)

/-- A thermal point stored at exactly 2100-01-01T00:00:00Z, outside the
delete range of `delete_all_data`. -/
def pLate : StorePoint :=
  ⟨"thermal_zone", some "BLOCK1:OFFICEXSW:X1F", stop2100,
    [("mean_air_temperature", natQ 20)]⟩

/-- A site point inside the delete range. -/
def pEarly : StorePoint :=
  ⟨"site_metrics", none, 100, [("outdoor_air_temp", natQ 10)]⟩

/-- C8 counterexample: the delete operation does not remove every point of
the two families across all time — its `stop` bound is the fixed instant
2100-01-01T00:00:00Z, so a thermal-family point stored at that instant
survives a delete-all. -/
theorem c8_counterexample :
    delete_all_data [pLate] = [pLate] ∧
    pLate.measurement = "thermal_zone" ∧ delete_all_data [pLate] ≠ [] := by
  refine ⟨by decide, by decide, by decide⟩

/-- C8 amended: the delete-all removes every point of both families with
timestamp in `[1970-01-01, 2100-01-01)`; it is idempotent; and, as long as
the current time is at most 2100-01-01, a delete-all followed by a raw
fetch over `[epoch, now)` returns an empty result for both families. -/
theorem c8_delete_bounded (st : List StorePoint) (now : ℤ)
    (hnow : now ≤ stop2100) :
    (∀ p ∈ delete_all_data st,
      (p.measurement = "thermal_zone" ∨ p.measurement = "site_metrics") →
      ¬(0 ≤ p.time ∧ p.time < stop2100)) ∧
    delete_all_data (delete_all_data st) = delete_all_data st ∧
    get_data (delete_all_data st) none none 0 now = .ok [] := by
  have key : ∀ p ∈ delete_all_data st,
      (p.measurement = "thermal_zone" ∨ p.measurement = "site_metrics") →
      ¬(0 ≤ p.time ∧ p.time < stop2100) := by
    intro p hp hfam ht
    have hpred := (List.mem_filter.mp hp).2
    rw [Bool.not_eq_true'] at hpred
    have hA : (p.measurement == "thermal_zone" || p.measurement == "site_metrics") = true := by
      cases hfam with
      | inl h => simp [h]
      | inr h => simp [h]
    have hB : inRange 0 stop2100 p.time = true := by
      simp [inRange, ht.1, ht.2]
    rw [hA, hB] at hpred
    cases hpred
  refine ⟨key, ?_, ?_⟩
  · simp [delete_all_data, List.filter_filter]
  · have hth : thermalQueryPoints (delete_all_data st) none 0 now = [] := by
      rw [thermalQueryPoints, List.filter_eq_nil_iff]
      intro p hp hpred
      simp only [Bool.and_eq_true, beq_iff_eq, inRange, decide_eq_true_eq] at hpred
      exact key p hp (Or.inl hpred.1.1) ⟨hpred.2.1, lt_of_lt_of_le hpred.2.2 hnow⟩
    have hsm : siteQueryPoints (delete_all_data st) 0 now = [] := by
      rw [siteQueryPoints, List.filter_eq_nil_iff]
      intro p hp hpred
      simp only [Bool.and_eq_true, beq_iff_eq, inRange, decide_eq_true_eq] at hpred
      exact key p hp (Or.inr hpred.1) ⟨hpred.2.1, lt_of_lt_of_le hpred.2.2 hnow⟩
    simp [get_data, hth, hsm, process_thermal_zone_data, process_site_metrics_data, exMap]

/-- C8 amended witness: at a concrete two-point store and `now = 1000`. -/
theorem c8_delete_bounded_witness :
    (∀ p ∈ delete_all_data [pLate, pEarly],
      (p.measurement = "thermal_zone" ∨ p.measurement = "site_metrics") →
      ¬(0 ≤ p.time ∧ p.time < stop2100)) ∧
    delete_all_data (delete_all_data [pLate, pEarly]) = delete_all_data [pLate, pEarly] ∧
    get_data (delete_all_data [pLate, pEarly]) none none 0 1000 = .ok [] :=
  c8_delete_bounded [pLate, pEarly] 1000 (by decide)

/-- C7: family filtering of the raw fetch.  A request with
`data_type="thermal_zone"` returns only thermal-zone records and never
site records; with `data_type="site_metrics"` only site records; and with
no `data_type` the result splits as thermal records followed by site
records. -/
theorem c7_family_filter (st : List StorePoint) (zone : Option String) (t0 t1 : ℤ) :
    (∀ l, get_data st (some "thermal_zone") zone t0 t1 = .ok l →
      ∀ x ∈ l, x.isThermal = true) ∧
    (∀ l, get_data st (some "site_metrics") zone t0 t1 = .ok l →
      ∀ x ∈ l, x.isThermal = false) ∧
    (∀ l, get_data st none zone t0 t1 = .ok l →
      ∃ l1 l2, l = l1 ++ l2 ∧ (∀ x ∈ l1, x.isThermal = true) ∧
        (∀ x ∈ l2, x.isThermal = false)) := by
  refine ⟨?_, ?_, ?_⟩
  · intro l h
    rw [get_data, if_pos rfl] at h
    cases hq : process_thermal_zone_data (thermalQueryPoints st zone t0 t1) with
    | error e => simp only [hq, exBind_err] at h; exact Except.noConfusion h
    | ok recs =>
      simp only [hq, exBind_ok, pure, Except.pure, Except.ok.injEq] at h
      subst h
      intro x hx
      obtain ⟨d, _, rfl⟩ := List.mem_map.mp hx
      rfl
  · intro l h
    rw [get_data, if_neg (by decide), if_pos rfl] at h
    simp only [pure, Except.pure, Except.ok.injEq] at h
    subst h
    intro x hx
    obtain ⟨d, _, rfl⟩ := List.mem_map.mp hx
    rfl
  · intro l h
    rw [get_data, if_neg (by decide), if_neg (by decide), if_pos rfl] at h
    cases hq : process_thermal_zone_data (thermalQueryPoints st zone t0 t1) with
    | error e => simp only [hq, exBind_err] at h; exact Except.noConfusion h
    | ok recs =>
      simp only [hq, exBind_ok, pure, Except.pure, Except.ok.injEq] at h
      subst h
      refine ⟨recs.map DataRec.thermal,
        (process_site_metrics_data (siteQueryPoints st t0 t1)).map DataRec.site,
        rfl, ?_, ?_⟩
      · intro x hx
        obtain ⟨d, _, rfl⟩ := List.mem_map.mp hx
        rfl
      · intro x hx
        obtain ⟨d, _, rfl⟩ := List.mem_map.mp hx
        rfl

/-- C7 witness: at a concrete two-point store, the unfiltered fetch splits
into the thermal record followed by the site record. -/
theorem c7_family_filter_witness :
    ∃ l1 l2,
      [DataRec.thermal ⟨"BLOCK1:OFFICEXSW:X1F", 100, some (natQ 20), none, none,
          none, none, none, none, none, none, none, none, none⟩,
       DataRec.site ⟨100, none, none, some (natQ 10), none, none⟩] = l1 ++ l2 ∧
      (∀ x ∈ l1, x.isThermal = true) ∧ (∀ x ∈ l2, x.isThermal = false) :=
  (c7_family_filter
    [⟨"thermal_zone", some "BLOCK1:OFFICEXSW:X1F", 100,
        [("mean_air_temperature", natQ 20)]⟩, pEarly] none 0 1000).2.2 _ (by decide)

/-- Whether a fallible computation succeeded. -/
def exOk {α : Type} : Except PyError α → Bool
  | .ok _ => true
  | .error _ => false

/-- The value of a successful computation. -/
def exToOption {α : Type} : Except PyError α → Option α
  | .ok a => some a
  | .error _ => none

theorem exToOption_eq_some {α : Type} (x : Except PyError α) (a : α) :
    exToOption x = some a ↔ x = .ok a := by
  cases x <;> simp [exToOption]

theorem mkZoneEvent_ok_shape (r : Row) (ts : String) (c : Combo) (pl : Payload)
    (h : mkZoneEvent r ts c = .ok pl) :
    pl.measurement = "thermal_zone" ∧ pl.zoneTag = some (zoneIdTag c) ∧ pl.time = ts := by
  unfold mkZoneEvent at h
  cases hf : mkFields r (zoneCols (zonePfx c)) with
  | error e => simp only [hf, exBind_err] at h; exact Except.noConfusion h
  | ok fs =>
    simp only [hf, exBind_ok, pure, Except.pure, Except.ok.injEq] at h
    subst h
    exact ⟨rfl, rfl, rfl⟩

theorem mkSiteEvent_ok_shape (r : Row) (ts : String) (pl : Payload)
    (h : mkSiteEvent r ts = .ok pl) :
    pl.measurement = "site_metrics" ∧ pl.zoneTag = none ∧ pl.time = ts := by
  unfold mkSiteEvent at h
  cases hf : mkFields r siteCols with
  | error e => simp only [hf, exBind_err] at h; exact Except.noConfusion h
  | ok fs =>
    simp only [hf, exBind_ok, pure, Except.pure, Except.ok.injEq] at h
    subst h
    exact ⟨rfl, rfl, rfl⟩

/-- If some reached combination has a present temperature column but a
failing payload construction, the combination loop ends in an uncaught
exception. -/
theorem processCombos_error_of_bad (r : Row) (ts : String) :
    ∀ (cs : List Combo) (c : Combo), c ∈ cs → tempPresent r c = true →
      exOk (mkZoneEvent r ts c) = false →
      (processCombos r ts cs).2.isSome = true := by
  intro cs
  induction cs with
  | nil => intro c hc; cases hc
  | cons d ds ih =>
    intro c hc htemp hbad
    cases hc with
    | head =>
      simp only [processCombos, if_pos htemp]
      cases hm : mkZoneEvent r ts d with
      | error e => simp
      | ok pl => rw [hm] at hbad; simp [exOk] at hbad
    | tail _ hc =>
      by_cases hd : tempPresent r d = true
      · simp only [processCombos, if_pos hd]
        cases hm : mkZoneEvent r ts d with
        | error e => simp
        | ok pl =>
          have htail := ih c hc htemp hbad
          cases hpc : processCombos r ts ds with
          | mk ps err => rw [hpc] at htail; simpa using htail
      · simp only [processCombos, if_neg hd]
        exact ih c hc htemp hbad

/-- If every present combination builds successfully, the combination loop
produces exactly the events of the present combinations, in loop order,
with no exception. -/
theorem processCombos_ok_of_good (r : Row) (ts : String) :
    ∀ cs : List Combo,
      (∀ c ∈ cs, tempPresent r c = true → exOk (mkZoneEvent r ts c) = true) →
      processCombos r ts cs =
        (cs.filterMap (fun c =>
          if tempPresent r c then exToOption (mkZoneEvent r ts c) else none), none) := by
  intro cs
  induction cs with
  | nil => intro _; rfl
  | cons d ds ih =>
    intro hgood
    by_cases hd : tempPresent r d = true
    · have hOk := hgood d (List.mem_cons_self d ds) hd
      cases hm : mkZoneEvent r ts d with
      | error e => rw [hm] at hOk; simp [exOk] at hOk
      | ok pl =>
        simp only [processCombos, if_pos hd, hm]
        rw [ih (fun c hc => hgood c (List.mem_cons_of_mem _ hc))]
        simp [List.filterMap_cons, if_pos hd, hm, exToOption]
    · simp only [processCombos, if_neg hd]
      rw [ih (fun c hc => hgood c (List.mem_cons_of_mem _ hc))]
      simp [List.filterMap_cons, hd]

/-- A row whose first topology combination has its temperature column but
lacks the operative-temperature column. -/
def rowMissingField : Row :=
  [("DateTime", "01/01 01:00:00"),
   ("BLOCK1:OFFICEXSWX1F:Zone Mean Air Temperature", "20.0")]

/-- A fully valid row carrying only the five site columns. -/
def rowGoodSite : Row :=
  [("DateTime", "01/01 02:00:00"),
   ("InteriorLights:Electricity", "5"),
   ("Electricity:Facility", "7.5"),
   ("Site Site Outdoor Air Drybulb Temperature", "10.25"),
   ("Site Site Diffuse Solar Radiation Rate per Area", "1"),
   ("Site Site Direct Solar Radiation Rate per Area", "2")]

/-- C2 counterexample: a missing required field for a present combination
is not an error isolated to that one event — the uncaught `KeyError`
aborts the whole batch.  The second row is fully valid and alone would
publish one event, yet processing both rows publishes nothing and ends in
the exception. -/
theorem c2_counterexample :
    process_csv [rowMissingField, rowGoodSite] =
      ([], some (.keyError "BLOCK1:OFFICEXSWX1F:Zone Operative Temperature")) ∧
    (process_csv [rowGoodSite]).2 = none ∧
    (process_csv [rowGoodSite]).1.length = 1 := by
  refine ⟨by decide, by decide, by decide⟩

/-- C2 amended: when a row with a parseable timestamp has some combination
whose temperature column is present but whose payload construction raises
(missing required column or non-numeric content), the exception is
uncaught: the row ends in an error and the whole batch stops there —
events of subsequent rows are never produced, only events already
published before the failure are kept. -/
theorem c2_uncaught_abort (r : Row) (rest : List Row) (dts : String) (dt : Datetime)
    (h1 : rowGet? r "DateTime" = some dts) (h2 : parse_datetime dts = .ok dt)
    (c : Combo) (hc : c ∈ combos) (htemp : tempPresent r c = true)
    (hbad : exOk (mkZoneEvent r (isoZ dt) c) = false) :
    ∃ e, (processRow r).2 = some e ∧
      process_csv (r :: rest) = ((processRow r).1, some e) := by
  cases hpc : processCombos r (isoZ dt) combos with
  | mk evs err =>
  have herr : err.isSome = true := by
    have := processCombos_error_of_bad r (isoZ dt) combos c hc htemp hbad
    rw [hpc] at this
    exact this
  obtain ⟨e, he⟩ := Option.isSome_iff_exists.mp herr
  subst he
  have hrowEq : processRow r = (evs, some e) := by
    simp only [processRow, h1, h2, hpc]
  refine ⟨e, by rw [hrowEq], ?_⟩
  rw [hrowEq]
  simp only [process_csv, hrowEq]

/-- C2 amended witness: at the concrete two-row batch. -/
theorem c2_uncaught_abort_witness :
    ∃ e, (processRow rowMissingField).2 = some e ∧
      process_csv (rowMissingField :: [rowGoodSite]) =
        ((processRow rowMissingField).1, some e) :=
  c2_uncaught_abort rowMissingField [rowGoodSite] "01/01 01:00:00" ⟨2005, 1, 1, 1, 0, 0⟩
    (by decide) rfl ⟨"BLOCK1", "OFFICEXSW", "X1F"⟩ (by decide) (by decide) (by decide)

/-- A row with a parseable timestamp and nothing else. -/
def rowBareDate : Row := [("DateTime", "01/01 01:00:00")]

/-- C6 counterexample: a row with a parseable `DateTime` need not produce
a SiteMetrics event — with the site columns missing, the site payload
construction raises and no site event is published. -/
theorem c6_counterexample :
    rowGet? rowBareDate "DateTime" = some "01/01 01:00:00" ∧
    parse_datetime "01/01 01:00:00" = .ok ⟨2005, 1, 1, 1, 0, 0⟩ ∧
    ((processRow rowBareDate).1.filter
      (fun pl => pl.measurement == "site_metrics")).length = 0 := by
  refine ⟨by decide, rfl, by decide⟩

/-- C6 amended: for a row with a parseable timestamp on which every
temperature-present combination and the site payload build successfully,
the row produces exactly the thermal events of the present combinations —
at most one per combination, in the deterministic block/orientation/floor
loop order — followed by the single site event, last. -/
theorem c6_row_shape (r : Row) (dts : String) (dt : Datetime)
    (h1 : rowGet? r "DateTime" = some dts) (h2 : parse_datetime dts = .ok dt)
    (hz : ∀ c ∈ combos, tempPresent r c = true → exOk (mkZoneEvent r (isoZ dt) c) = true)
    (hs : exOk (mkSiteEvent r (isoZ dt)) = true) :
    ∃ sp, mkSiteEvent r (isoZ dt) = .ok sp ∧ sp.measurement = "site_metrics" ∧
      processRow r =
        (combos.filterMap (fun c =>
          if tempPresent r c then exToOption (mkZoneEvent r (isoZ dt) c) else none) ++
          [sp], none) ∧
      ∀ pl ∈ combos.filterMap (fun c =>
          if tempPresent r c then exToOption (mkZoneEvent r (isoZ dt) c) else none),
        pl.measurement = "thermal_zone" := by
  obtain ⟨sp, hsp⟩ : ∃ sp, mkSiteEvent r (isoZ dt) = .ok sp := by
    cases hm : mkSiteEvent r (isoZ dt) with
    | error e => rw [hm] at hs; simp [exOk] at hs
    | ok sp => exact ⟨sp, rfl⟩
  refine ⟨sp, hsp, (mkSiteEvent_ok_shape r (isoZ dt) sp hsp).1, ?_, ?_⟩
  · simp only [processRow, h1, h2, processCombos_ok_of_good r (isoZ dt) combos hz, hsp]
  · intro pl hpl
    obtain ⟨c, _, hcp⟩ := List.mem_filterMap.mp hpl
    by_cases hct : tempPresent r c = true
    · rw [if_pos hct, exToOption_eq_some] at hcp
      exact (mkZoneEvent_ok_shape r (isoZ dt) c pl hcp).1
    · rw [if_neg hct] at hcp
      exact Option.noConfusion hcp

/-- The first topology combination of the loop. -/
def comboSW1 : Combo := ⟨"BLOCK1", "OFFICEXSW", "X1F"⟩

/-- A row populating every column of the first combination and all site
columns with the numeric cell "1". -/
def rowFull : Row :=
  ("DateTime", "01/01 01:00:00") ::
    ((zoneCols (zonePfx comboSW1)).map (fun nc => (nc.2, "1")) ++
     siteCols.map (fun nc => (nc.2, "1")))

/-- C6 amended witness: at the concrete fully populated row. -/
theorem c6_row_shape_witness :
    ∃ sp, mkSiteEvent rowFull (isoZ ⟨2005, 1, 1, 1, 0, 0⟩) = .ok sp ∧
      sp.measurement = "site_metrics" ∧
      processRow rowFull =
        (combos.filterMap (fun c =>
          if tempPresent rowFull c then
            exToOption (mkZoneEvent rowFull (isoZ ⟨2005, 1, 1, 1, 0, 0⟩) c)
          else none) ++ [sp], none) ∧
      ∀ pl ∈ combos.filterMap (fun c =>
          if tempPresent rowFull c then
            exToOption (mkZoneEvent rowFull (isoZ ⟨2005, 1, 1, 1, 0, 0⟩) c)
          else none),
        pl.measurement = "thermal_zone" :=
  c6_row_shape rowFull "01/01 01:00:00" ⟨2005, 1, 1, 1, 0, 0⟩
    (by decide) rfl (by decide) (by decide)

theorem mkFieldStep_elim (r : Row) (nc : String × String) (kv : String × ℚ)
    (h : (do
        let s ← rowGetE r nc.2
        let q ← pyFloatE s
        pure (nc.1, q) : Except PyError (String × ℚ)) = .ok kv) :
    kv.1 = nc.1 ∧ ∃ s q, rowGet? r nc.2 = some s ∧ pyFloat s = some q ∧ kv.2 = q := by
  cases hg : rowGet? r nc.2 with
  | none =>
    simp only [rowGetE, hg, exBind_err] at h
    exact Except.noConfusion h
  | some s =>
    simp only [rowGetE, hg, exBind_ok] at h
    cases hq : pyFloat s with
    | none =>
      simp only [pyFloatE, hq, exBind_err] at h
      exact Except.noConfusion h
    | some q =>
      simp only [pyFloatE, hq, exBind_ok, pure, Except.pure, Except.ok.injEq] at h
      subst h
      exact ⟨rfl, s, q, rfl, hq, rfl⟩

theorem exMap_round_map (fs : List (String × ℚ)) :
    exMap (fun kv => do
        let q ← jsonToFloat kv.2
        pure (kv.1, round4 q)) (fs.map (fun kv => (kv.1, Json.num kv.2))) =
      .ok (fs.map (fun kv => (kv.1, round4 kv.2))) := by
  induction fs with
  | nil => rfl
  | cons kv fs ih =>
    rw [List.map_cons,
      show exMap (fun kv => do
          let q ← jsonToFloat kv.2
          pure (kv.1, round4 q))
        ((kv.1, Json.num kv.2) :: fs.map (fun kv => (kv.1, Json.num kv.2))) =
        (exMap (fun kv => do
          let q ← jsonToFloat kv.2
          pure (kv.1, round4 q)) (fs.map (fun kv => (kv.1, Json.num kv.2)))) >>=
          (fun ys => pure ((kv.1, round4 kv.2) :: ys)) from rfl, ih]
    rfl

/-- Evaluation of the thermal write path on a published payload: the point
keeps the payload metadata and stores every field rounded to 4 decimal
places. -/
theorem write_thermal_of_payload (m z ts : String) (fs : List (String × ℚ)) :
    write_thermal_zone_core (payloadToJson ⟨m, some z, ts, fs⟩) =
      .ok ⟨m, [("zone_id", z)], ts, fs.map (fun kv => (kv.1, round4 kv.2))⟩ := by
  rw [show write_thermal_zone_core (payloadToJson ⟨m, some z, ts, fs⟩) =
      (exMap (fun kv => do
        let q ← jsonToFloat kv.2
        pure (kv.1, round4 q)) (fs.map (fun kv => (kv.1, Json.num kv.2)))) >>=
        (fun fs2 => pure (⟨m, [("zone_id", z)], ts, fs2⟩ : Point)) from rfl]
  rw [exMap_round_map]
  rfl

/-- Evaluation of the site write path on a published payload. -/
theorem write_site_of_payload (m ts : String) (fs : List (String × ℚ)) :
    write_site_metrics_core (payloadToJson ⟨m, none, ts, fs⟩) =
      .ok ⟨m, [], ts, fs.map (fun kv => (kv.1, round4 kv.2))⟩ := by
  rw [show write_site_metrics_core (payloadToJson ⟨m, none, ts, fs⟩) =
      (exMap (fun kv => do
        let q ← jsonToFloat kv.2
        pure (kv.1, round4 q)) (fs.map (fun kv => (kv.1, Json.num kv.2)))) >>=
        (fun fs2 => pure (⟨m, [], ts, fs2⟩ : Point)) from rfl]
  rw [exMap_round_map]
  rfl

/-- C1: the round trip through the pipeline.  For every measurement event
built by the publisher from a CSV row (either family) and consumed by the
subscriber/writer, the persisted point has one field per source column of
the event, with the same field name and with value equal to the parsed
source value rounded to 4 decimal places. -/
theorem c1_roundtrip_round4 :
    (∀ (r : Row) (ts : String) (c : Combo) (pl : Payload) (pt : Point),
      mkZoneEvent r ts c = .ok pl →
      write_thermal_zone_core (payloadToJson pl) = .ok pt →
      List.Forall₂ (fun (nc : String × String) (kv : String × ℚ) =>
        kv.1 = nc.1 ∧ ∃ s q, rowGet? r nc.2 = some s ∧ pyFloat s = some q ∧
          kv.2 = round4 q) (zoneCols (zonePfx c)) pt.fields) ∧
    (∀ (r : Row) (ts : String) (pl : Payload) (pt : Point),
      mkSiteEvent r ts = .ok pl →
      write_site_metrics_core (payloadToJson pl) = .ok pt →
      List.Forall₂ (fun (nc : String × String) (kv : String × ℚ) =>
        kv.1 = nc.1 ∧ ∃ s q, rowGet? r nc.2 = some s ∧ pyFloat s = some q ∧
          kv.2 = round4 q) siteCols pt.fields) := by
  constructor
  · intro r ts c pl pt h1 h2
    unfold mkZoneEvent at h1
    cases hf : mkFields r (zoneCols (zonePfx c)) with
    | error e => simp only [hf, exBind_err] at h1; exact Except.noConfusion h1
    | ok fs =>
      simp only [hf, exBind_ok, pure, Except.pure, Except.ok.injEq] at h1
      subst h1
      rw [write_thermal_of_payload] at h2
      injection h2 with h2
      subst h2
      refine List.forall₂_map_right_iff.mpr ((exMap_ok_forall₂ _ hf).imp ?_)
      intro nc kv hstep
      obtain ⟨hfst, s, q, hget, hfloat, hval⟩ := mkFieldStep_elim r nc kv hstep
      exact ⟨hfst, s, q, hget, hfloat, by rw [hval]⟩
  · intro r ts pl pt h1 h2
    unfold mkSiteEvent at h1
    cases hf : mkFields r siteCols with
    | error e => simp only [hf, exBind_err] at h1; exact Except.noConfusion h1
    | ok fs =>
      simp only [hf, exBind_ok, pure, Except.pure, Except.ok.injEq] at h1
      subst h1
      rw [write_site_of_payload] at h2
      injection h2 with h2
      subst h2
      refine List.forall₂_map_right_iff.mpr ((exMap_ok_forall₂ _ hf).imp ?_)
      intro nc kv hstep
      obtain ⟨hfst, s, q, hget, hfloat, hval⟩ := mkFieldStep_elim r nc kv hstep
      exact ⟨hfst, s, q, hget, hfloat, by rw [hval]⟩

/-- The event the publisher builds from `rowFull` for the first
combination. -/
def plC1 : Payload :=
  ⟨"thermal_zone", some (zoneIdTag comboSW1), "t",
    (zoneCols (zonePfx comboSW1)).map (fun nc => (nc.1, natQ 1))⟩

/-- The point the subscriber persists for `plC1`. -/
def ptC1 : Point :=
  ⟨"thermal_zone", [("zone_id", zoneIdTag comboSW1)], "t",
    (zoneCols (zonePfx comboSW1)).map (fun nc => (nc.1, natQ 1))⟩

/-- C1 witness: the round trip at the concrete fully populated row. -/
theorem c1_roundtrip_round4_witness :
    List.Forall₂ (fun (nc : String × String) (kv : String × ℚ) =>
      kv.1 = nc.1 ∧ ∃ s q, rowGet? rowFull nc.2 = some s ∧ pyFloat s = some q ∧
        kv.2 = round4 q) (zoneCols (zonePfx comboSW1)) ptC1.fields :=
  c1_roundtrip_round4.1 rowFull "t" comboSW1 plC1 ptC1 (by decide) (by decide)

/-- The store of the aligned-fetch test scenario of the spec: outdoor
readings at two timestamps, indoor readings for two zones at the first
timestamp only. -/
def stC4 : List StorePoint :=
  [⟨"site_metrics", none, 100, [("outdoor_air_temp", natQ 10)]⟩,
   ⟨"site_metrics", none, 200, [("outdoor_air_temp", natQ 11)]⟩,
   ⟨"thermal_zone", some "BLOCK1:OFFICEXSW:X1F", 100,
      [("mean_air_temperature", natQ 20)]⟩,
   ⟨"thermal_zone", some "BLOCK1:OFFICEXSE:X1F", 100,
      [("mean_air_temperature", natQ 22)]⟩]

/-- C4 failing input: on any store holding site data in range — in
particular the exact scenario of the spec (outdoor at two timestamps,
indoor for two zones at one) — the aligned temperature fetch does not
return one row per timestamp of the union; it raises `KeyError("_field")`
(surfacing as HTTP 500), because the outdoor comprehension calls
`record.get_field()` on records of the pivoted site query, which carry no
`_field` column. -/
theorem c4_get_field_keyerror :
    get_temperatures stC4 none 0 1000 true = .error (.keyError "_field") ∧
    get_temperatures stC4 none 0 1000 false = .error (.keyError "_field") ∧
    (∀ rec ∈ siteQueryRecords stC4 0 1000, recGet rec "_field" = .error (.keyError "_field")) ∧
    siteQueryRecords stC4 0 1000 ≠ [] := by
  refine ⟨by decide, by decide, by decide, by decide⟩

end VBMS
